import Mathlib

/-!
Verification of the Pong game server (`backend/pong/game_engine.py` and
`backend/pong/consumers.py`) against its natural-language specification.

The physics state is embedded over the exact real numbers `ℝ` (the Python
source computes with floats; the spec and the claims describe the
arithmetic as exact).  The source's two uses of the standard-library
random generator (`random.choice` in `start_game`, `random.uniform` for
the serve angle in `reset_ball`) are modelled as explicit parameters
threaded through the operations, as an injectable random source: every
theorem quantifies over (or fixes) those draws.
-/

namespace Pong

/-- Game status, mirroring the `Literal` string statuses of
`GameEngine.status` in `game_engine.py`. -/
inductive Status where
  | waiting_for_opponent
  | waiting_for_ready
  | playing
  | finished
deriving DecidableEq, Repr

/-- Event record returned by `GameEngine.update` (the `events` dict):
whether a paddle or wall was hit this tick, which player scored (if any),
and the `game_over` flag (initialised `False` and never written). -/
structure Events where
  paddleHit : Bool
  wallHit : Bool
  score : Option Nat
  gameOver : Bool
deriving DecidableEq, Repr

/-- State of one `GameEngine` instance: field-for-field image of the
attributes set in `GameEngine.__init__`.  Paddle directions are stored as
strings, exactly as the Python code stores them. -/
structure Engine where
  roomCode : String
  pointsLimit : Nat
  status : Status
  player1Ready : Bool
  player2Ready : Bool
  player1Connected : Bool
  player2Connected : Bool
  scoreP1 : Nat
  scoreP2 : Nat
  winner : Option String
  p1Y : ℝ
  p2Y : ℝ
  p1Direction : String
  p2Direction : String
  ballX : ℝ
  ballY : ℝ
  ballVelocityX : ℝ
  ballVelocityY : ℝ
  ballSpeed : ℝ

noncomputable section

/-- Field width constant (`GameEngine.FIELD_WIDTH`). -/
def FIELD_WIDTH : ℝ := 100
/-- Field height constant (`GameEngine.FIELD_HEIGHT`). -/
def FIELD_HEIGHT : ℝ := 100
/-- Paddle width constant (`GameEngine.PADDLE_WIDTH`). -/
def PADDLE_WIDTH : ℝ := 2
/-- Paddle height constant (`GameEngine.PADDLE_HEIGHT`). -/
def PADDLE_HEIGHT : ℝ := 20
/-- Ball size constant (`GameEngine.BALL_SIZE`). -/
def BALL_SIZE : ℝ := 2
/-- Initial ball speed constant (`GameEngine.INITIAL_BALL_SPEED`). -/
def INITIAL_BALL_SPEED : ℝ := 0.8
/-- Speed growth factor per paddle hit (`GameEngine.SPEED_INCREASE_FACTOR`). -/
def SPEED_INCREASE_FACTOR : ℝ := 1.05
/-- Maximum ball speed constant (`GameEngine.MAX_BALL_SPEED`). -/
def MAX_BALL_SPEED : ℝ := 3.0
/-- Paddle speed per tick (`GameEngine.PADDLE_SPEED`). -/
def PADDLE_SPEED : ℝ := 1.5

/-- Constructor `GameEngine.__init__(room_code, points_limit)`. -/
def Engine.init (roomCode : String) (pointsLimit : Nat) : Engine :=
  { roomCode := roomCode
    pointsLimit := pointsLimit
    status := Status.waiting_for_opponent
    player1Ready := false
    player2Ready := false
    player1Connected := false
    player2Connected := false
    scoreP1 := 0
    scoreP2 := 0
    winner := none
    p1Y := 50
    p2Y := 50
    p1Direction := "stop"
    p2Direction := "stop"
    ballX := 50
    ballY := 50
    ballVelocityX := 0
    ballVelocityY := 0
    ballSpeed := INITIAL_BALL_SPEED }

/-- Method `GameEngine.player_join(player_num)`.  Returns the new state and
the boolean result of the Python method. -/
def Engine.playerJoin (s : Engine) (playerNum : Nat) : Engine × Bool :=
  if playerNum = 1 then
    let s1 := { s with player1Connected := true }
    (if s1.player2Connected then { s1 with status := Status.waiting_for_ready } else s1, true)
  else if playerNum = 2 then
    let s1 := { s with player2Connected := true }
    (if s1.player1Connected then { s1 with status := Status.waiting_for_ready } else s1, true)
  else (s, false)

/-- Method `GameEngine.reset_ball(serve_to_player)`.  The random launch
angle drawn by `random.uniform(-pi/4, pi/4)` is the parameter `angle`. -/
noncomputable def Engine.resetBall (s : Engine) (serveToPlayer : Nat) (angle : ℝ) : Engine :=
  let s1 := { s with ballX := 50, ballY := 50, ballSpeed := INITIAL_BALL_SPEED }
  let direction : ℝ := if serveToPlayer = 2 then 1 else -1
  { s1 with
    ballVelocityX := direction * s1.ballSpeed * Real.cos angle
    ballVelocityY := s1.ballSpeed * Real.sin angle }

/-- Method `GameEngine.start_game()`.  The random serve target drawn by
`random.choice([1, 2])` is the parameter `serveChoice`. -/
noncomputable def Engine.startGame (s : Engine) (serveChoice : Nat) (angle : ℝ) : Engine :=
  Engine.resetBall { s with status := Status.playing } serveChoice angle

/-- Method `GameEngine.player_ready(player_num)`. -/
noncomputable def Engine.playerReady (s : Engine) (playerNum : Nat)
    (serveChoice : Nat) (angle : ℝ) : Engine :=
  let s1 :=
    if playerNum = 1 then { s with player1Ready := true }
    else if playerNum = 2 then { s with player2Ready := true }
    else s
  if s1.player1Ready = true ∧ s1.player2Ready = true ∧ s1.status = Status.waiting_for_ready then
    Engine.startGame s1 serveChoice angle
  else s1

/-- Method `GameEngine.set_paddle_direction(player_num, direction)`. -/
def Engine.setPaddleDirection (s : Engine) (playerNum : Nat) (direction : String) : Engine :=
  if playerNum = 1 then { s with p1Direction := direction }
  else if playerNum = 2 then { s with p2Direction := direction }
  else s

/-- Method `GameEngine._update_paddles(delta_time)`.  The `delta_time`
argument is accepted, and — exactly as in the source — never used. -/
def Engine.updatePaddles (s : Engine) (deltaTime : ℝ) : Engine :=
  let p1 :=
    if s.p1Direction = "up" then s.p1Y - PADDLE_SPEED
    else if s.p1Direction = "down" then s.p1Y + PADDLE_SPEED
    else s.p1Y
  let p2 :=
    if s.p2Direction = "up" then s.p2Y - PADDLE_SPEED
    else if s.p2Direction = "down" then s.p2Y + PADDLE_SPEED
    else s.p2Y
  let paddleHalfHeight := PADDLE_HEIGHT / 2
  { s with
    p1Y := max paddleHalfHeight (min (FIELD_HEIGHT - paddleHalfHeight) p1)
    p2Y := max paddleHalfHeight (min (FIELD_HEIGHT - paddleHalfHeight) p2) }

/-- Events dict as initialised at the top of `GameEngine.update`. -/
def initialEvents : Events :=
  { paddleHit := false, wallHit := false, score := none, gameOver := false }

/-- Ball translation at the top of `GameEngine._update_ball` (`# Move ball`). -/
def Engine.moveBall (s : Engine) : Engine :=
  { s with ballX := s.ballX + s.ballVelocityX, ballY := s.ballY + s.ballVelocityY }

/-- Top/bottom wall handling of `GameEngine._update_ball`
(`# Check wall collisions (top and bottom)`). -/
def Engine.wallBounce (s : Engine) (ev : Events) : Engine × Events :=
  let ballHalfSize := BALL_SIZE / 2
  if s.ballY - ballHalfSize ≤ 0 then
    ({ s with ballY := ballHalfSize, ballVelocityY := |s.ballVelocityY| },
     { ev with wallHit := true })
  else if s.ballY + ballHalfSize ≥ FIELD_HEIGHT then
    ({ s with ballY := FIELD_HEIGHT - ballHalfSize, ballVelocityY := -|s.ballVelocityY| },
     { ev with wallHit := true })
  else (s, ev)

/-- Horizontal position of paddle `playerNum`'s centre, as computed at the
top of `GameEngine._check_paddle_collision`. -/
def paddleXOf (playerNum : Nat) : ℝ :=
  if playerNum = 1 then PADDLE_WIDTH else FIELD_WIDTH - PADDLE_WIDTH

/-- Vertical position of paddle `playerNum`'s centre (`self.p1_y` or
`self.p2_y`). -/
def Engine.paddleYOf (s : Engine) (playerNum : Nat) : ℝ :=
  if playerNum = 1 then s.p1Y else s.p2Y

/-- Direction test `ball_moving_towards_paddle` of
`GameEngine._check_paddle_collision`. -/
def Engine.movingToward (s : Engine) (playerNum : Nat) : Prop :=
  if playerNum = 1 then s.ballVelocityX < 0 else s.ballVelocityX > 0

instance (s : Engine) (n : Nat) : Decidable (s.movingToward n) := by
  unfold Engine.movingToward; infer_instance

/-- AABB overlap test of `GameEngine._check_paddle_collision`
(`# AABB collision detection`). -/
def Engine.aabbOverlap (s : Engine) (playerNum : Nat) : Prop :=
  s.ballX + BALL_SIZE / 2 ≥ paddleXOf playerNum - PADDLE_WIDTH / 2 ∧
  s.ballX - BALL_SIZE / 2 ≤ paddleXOf playerNum + PADDLE_WIDTH / 2 ∧
  s.ballY + BALL_SIZE / 2 ≥ s.paddleYOf playerNum - PADDLE_HEIGHT / 2 ∧
  s.ballY - BALL_SIZE / 2 ≤ s.paddleYOf playerNum + PADDLE_HEIGHT / 2

instance (s : Engine) (n : Nat) : Decidable (s.aabbOverlap n) := by
  unfold Engine.aabbOverlap; infer_instance

/-- Conjunction of the two guards under which the collision branch of
`GameEngine._check_paddle_collision` runs. -/
def Engine.collisionDetected (s : Engine) (playerNum : Nat) : Prop :=
  s.movingToward playerNum ∧ s.aabbOverlap playerNum

/-- Method `GameEngine._check_paddle_collision(player_num, events)`. -/
def Engine.checkPaddleCollision (s : Engine) (playerNum : Nat) (ev : Events) :
    Engine × Events :=
  if ¬ s.movingToward playerNum then (s, ev)
  else if s.aabbOverlap playerNum then
    let ev2 := { ev with paddleHit := true }
    let vx := -s.ballVelocityX
    let hitPos := (s.ballY - s.paddleYOf playerNum) / (PADDLE_HEIGHT / 2)
    let vy := s.ballVelocityY + hitPos * 0.5
    let currentSpeed := Real.sqrt (vx ^ 2 + vy ^ 2)
    let newSpeed := min (currentSpeed * SPEED_INCREASE_FACTOR) MAX_BALL_SPEED
    let vx2 := if currentSpeed > 0 then vx / currentSpeed * newSpeed else vx
    let vy2 := if currentSpeed > 0 then vy / currentSpeed * newSpeed else vy
    let bx :=
      if playerNum = 1 then
        paddleXOf playerNum + PADDLE_WIDTH / 2 + BALL_SIZE / 2 + 0.1
      else
        paddleXOf playerNum - PADDLE_WIDTH / 2 - BALL_SIZE / 2 - 0.1
    ({ s with ballVelocityX := vx2, ballVelocityY := vy2, ballX := bx }, ev2)
  else (s, ev)

/-- Method `GameEngine._handle_score()`.  The fresh random serve angle
drawn inside `reset_ball` is the parameter `angle`. -/
def Engine.handleScore (s : Engine) (angle : ℝ) : Engine :=
  if s.scoreP1 ≥ s.pointsLimit then
    { s with winner := some "Player 1", status := Status.finished }
  else if s.scoreP2 ≥ s.pointsLimit then
    { s with winner := some "Player 2", status := Status.finished }
  else
    s.resetBall (if s.scoreP2 > s.scoreP1 then 1 else 2) angle

/-- Scoring check at the end of `GameEngine._update_ball`
(`# Check scoring (ball passed paddles)`). -/
def Engine.scoreStep (s : Engine) (ev : Events) (angle : ℝ) : Engine × Events :=
  if s.ballX ≤ 0 then
    (Engine.handleScore { s with scoreP2 := s.scoreP2 + 1 } angle,
     { ev with score := some 2 })
  else if s.ballX ≥ FIELD_WIDTH then
    (Engine.handleScore { s with scoreP1 := s.scoreP1 + 1 } angle,
     { ev with score := some 1 })
  else (s, ev)

/-- Method `GameEngine._update_ball(delta_time, events)`: move the ball,
bounce on walls, check both paddles, then check scoring. -/
def Engine.updateBall (s : Engine) (deltaTime : ℝ) (ev : Events) (angle : ℝ) :
    Engine × Events :=
  let w := Engine.wallBounce s.moveBall ev
  let c1 := Engine.checkPaddleCollision w.1 1 w.2
  let c2 := Engine.checkPaddleCollision c1.1 2 c1.2
  Engine.scoreStep c2.1 c2.2 angle

/-- Method `GameEngine.update(delta_time)`: the per-tick entry point.
Returns the new state together with the events dict. -/
def Engine.update (s : Engine) (deltaTime : ℝ) (angle : ℝ) : Engine × Events :=
  if s.status ≠ Status.playing then (s, initialEvents)
  else Engine.updateBall (s.updatePaddles deltaTime) deltaTime initialEvents angle

/-- Magnitude of the ball's velocity vector of a state. -/
def Engine.ballSpeedMag (s : Engine) : ℝ :=
  Real.sqrt (s.ballVelocityX ^ 2 + s.ballVelocityY ^ 2)

/-- Speed magnitude of the ball right after the horizontal bounce and the
vertical spin adjustment inside `_check_paddle_collision`, before the
growth factor is applied (the `current_speed` local of the source). -/
def Engine.postSpinSpeed (s : Engine) (playerNum : Nat) : ℝ :=
  Real.sqrt ((-s.ballVelocityX) ^ 2 +
    (s.ballVelocityY + (s.ballY - s.paddleYOf playerNum) / (PADDLE_HEIGHT / 2) * 0.5) ^ 2)

/-!
Consumer layer (`backend/pong/consumers.py`).  A `Room` is one entry of
the `ACTIVE_ROOMS` dict; a `Conn` is the per-connection state (`self.role`
and `self.player_num`) of a `PongConsumer`.  Messages sent over the
websocket are modelled by `ServerMsg`; each handler returns the messages
it sends to the calling connection and the ones it broadcasts to the
room group.
-/

/-- One entry of `ACTIVE_ROOMS`: lazily created engine, the two player
slots of the `players` dict (holding channel names), and the observer
list. -/
structure Room where
  engine : Option Engine
  player1 : Option String
  player2 : Option String
  observers : List String

/-- Per-connection state of a `PongConsumer`: `self.role` and
`self.player_num` (both `None` until a join succeeds). -/
structure Conn where
  role : Option String
  playerNum : Option Nat

/-- Server-to-client messages emitted by the consumer handlers. -/
inductive ServerMsg where
  | roomCreated (roomCode : String) (pointsLimit : Nat)
  | joinedAsPlayer (playerNum : Option Nat) (roomCode : String)
  | joinedAsObserver (roomCode : String)
  | statusChange (status : Status)
  | errorMsg (message : String)
deriving DecidableEq

/-- Result of `PongConsumer.handle_join_game`: updated connection state,
updated room, messages sent to the caller, and messages broadcast to the
room group. -/
structure JoinResult where
  conn : Conn
  room : Option Room
  selfMsgs : List ServerMsg
  groupMsgs : List ServerMsg

/-- Handler `PongConsumer.handle_join_game(data)`.  `roleReq` is
`data.get('role', 'player')`; `channelName` is `self.channel_name`;
`room?` is `ACTIVE_ROOMS.get(self.room_code)`. -/
def handleJoinGame (roomCode channelName : String) (conn : Conn)
    (room? : Option Room) (roleReq : String) : JoinResult :=
  match room? with
  | none =>
    { conn := conn, room := none
      selfMsgs := [ServerMsg.errorMsg "Room does not exist"], groupMsgs := [] }
  | some room0 =>
    let e0 : Engine :=
      match room0.engine with
      | none => Engine.init roomCode 5
      | some e => e
    let assigned : Option Nat × Room × Engine × String :=
      if roleReq = "player" then
        if room0.player1 = none then
          (some 1,
           { room0 with engine := some (e0.playerJoin 1).1, player1 := some channelName },
           (e0.playerJoin 1).1, "player")
        else if room0.player2 = none then
          (some 2,
           { room0 with engine := some (e0.playerJoin 2).1, player2 := some channelName },
           (e0.playerJoin 2).1, "player")
        else
          (conn.playerNum, { room0 with engine := some e0 }, e0, "observer")
      else
        (conn.playerNum, { room0 with engine := some e0 }, e0, roleReq)
    let pn := assigned.1
    let room2 := assigned.2.1
    let e2 := assigned.2.2.1
    let finalRole := assigned.2.2.2
    if finalRole = "observer" then
      { conn := { conn with role := some "observer", playerNum := pn }
        room := some { room2 with observers := room2.observers ++ [channelName] }
        selfMsgs := [ServerMsg.joinedAsObserver roomCode]
        groupMsgs := [ServerMsg.statusChange e2.status] }
    else
      { conn := { conn with role := some "player", playerNum := pn }
        room := some room2
        selfMsgs := [ServerMsg.joinedAsPlayer pn roomCode]
        groupMsgs := [ServerMsg.statusChange e2.status] }

/-- Handler `PongConsumer.handle_move_paddle(data)`.  `roomExists` models
the `self.room_code not in ACTIVE_ROOMS` check; `engine` is the room's
engine (the join handler guarantees a joined player's room has one);
`direction` is `data.get('direction', 'stop')`.  Returns the resulting
engine together with every message the handler sends (always none). -/
def handleMovePaddle (conn : Conn) (roomExists : Bool) (engine : Engine)
    (direction : String) : Engine × List ServerMsg :=
  if conn.role ≠ some "player" ∨ conn.playerNum = none ∨ conn.playerNum = some 0 then
    (engine, [])
  else if roomExists = false then (engine, [])
  else if engine.status ≠ Status.playing then (engine, [])
  else if ¬ (direction = "up" ∨ direction = "down" ∨ direction = "stop") then
    (engine, [])
  else
    match conn.playerNum with
    | some n => (engine.setPaddleDirection n direction, [])
    | none => (engine, [])

/-!
Engine operation traces.  An `Op` is one call of a public `GameEngine`
method; the random draws a call may consume are carried by the operation
itself (injected random source).
-/

/-- One public `GameEngine` operation. -/
inductive Op where
  | join (playerNum : Nat)
  | ready (playerNum : Nat) (serveChoice : Nat) (angle : ℝ)
  | setDir (playerNum : Nat) (direction : String)
  | upd (deltaTime : ℝ) (angle : ℝ)
  | start (serveChoice : Nat) (angle : ℝ)

/-- Applying one operation to an engine state. -/
def applyOp (s : Engine) : Op → Engine
  | Op.join n => (s.playerJoin n).1
  | Op.ready n c a => s.playerReady n c a
  | Op.setDir n d => s.setPaddleDirection n d
  | Op.upd dt a => (s.update dt a).1
  | Op.start c a => s.startGame c a

/-- Applying a list of operations left to right. -/
def runOps (s : Engine) : List Op → Engine
  | [] => s
  | op :: ops => runOps (applyOp s op) ops

/-- Numeric rank of a status along the chain
`waiting_for_opponent → waiting_for_ready → playing → finished`. -/
def rank : Status → Nat
  | Status.waiting_for_opponent => 0
  | Status.waiting_for_ready => 1
  | Status.playing => 2
  | Status.finished => 3

/-!
Frame lemmas: which fields each physics step leaves untouched.
-/

@[simp] lemma updatePaddles_status (s : Engine) (dt : ℝ) :
    (s.updatePaddles dt).status = s.status := rfl

@[simp] lemma updatePaddles_scoreP1 (s : Engine) (dt : ℝ) :
    (s.updatePaddles dt).scoreP1 = s.scoreP1 := rfl

@[simp] lemma updatePaddles_scoreP2 (s : Engine) (dt : ℝ) :
    (s.updatePaddles dt).scoreP2 = s.scoreP2 := rfl

@[simp] lemma updatePaddles_pointsLimit (s : Engine) (dt : ℝ) :
    (s.updatePaddles dt).pointsLimit = s.pointsLimit := rfl

@[simp] lemma updatePaddles_winner (s : Engine) (dt : ℝ) :
    (s.updatePaddles dt).winner = s.winner := rfl

@[simp] lemma moveBall_status (s : Engine) : s.moveBall.status = s.status := rfl

@[simp] lemma moveBall_scoreP1 (s : Engine) : s.moveBall.scoreP1 = s.scoreP1 := rfl

@[simp] lemma moveBall_scoreP2 (s : Engine) : s.moveBall.scoreP2 = s.scoreP2 := rfl

@[simp] lemma moveBall_pointsLimit (s : Engine) : s.moveBall.pointsLimit = s.pointsLimit := rfl

@[simp] lemma moveBall_winner (s : Engine) : s.moveBall.winner = s.winner := rfl

@[simp] lemma moveBall_p1Y (s : Engine) : s.moveBall.p1Y = s.p1Y := rfl

@[simp] lemma moveBall_p2Y (s : Engine) : s.moveBall.p2Y = s.p2Y := rfl

@[simp] lemma wallBounce_status (s : Engine) (ev : Events) :
    (s.wallBounce ev).1.status = s.status := by
  simp only [Engine.wallBounce]; split_ifs <;> rfl

@[simp] lemma wallBounce_scoreP1 (s : Engine) (ev : Events) :
    (s.wallBounce ev).1.scoreP1 = s.scoreP1 := by
  simp only [Engine.wallBounce]; split_ifs <;> rfl

@[simp] lemma wallBounce_scoreP2 (s : Engine) (ev : Events) :
    (s.wallBounce ev).1.scoreP2 = s.scoreP2 := by
  simp only [Engine.wallBounce]; split_ifs <;> rfl

@[simp] lemma wallBounce_pointsLimit (s : Engine) (ev : Events) :
    (s.wallBounce ev).1.pointsLimit = s.pointsLimit := by
  simp only [Engine.wallBounce]; split_ifs <;> rfl

@[simp] lemma wallBounce_winner (s : Engine) (ev : Events) :
    (s.wallBounce ev).1.winner = s.winner := by
  simp only [Engine.wallBounce]; split_ifs <;> rfl

@[simp] lemma wallBounce_p1Y (s : Engine) (ev : Events) :
    (s.wallBounce ev).1.p1Y = s.p1Y := by
  simp only [Engine.wallBounce]; split_ifs <;> rfl

@[simp] lemma wallBounce_p2Y (s : Engine) (ev : Events) :
    (s.wallBounce ev).1.p2Y = s.p2Y := by
  simp only [Engine.wallBounce]; split_ifs <;> rfl

@[simp] lemma wallBounce_ev_score (s : Engine) (ev : Events) :
    (s.wallBounce ev).2.score = ev.score := by
  simp only [Engine.wallBounce]; split_ifs <;> rfl

@[simp] lemma checkPaddleCollision_status (s : Engine) (n : Nat) (ev : Events) :
    (s.checkPaddleCollision n ev).1.status = s.status := by
  unfold Engine.checkPaddleCollision; split_ifs <;> rfl

@[simp] lemma checkPaddleCollision_scoreP1 (s : Engine) (n : Nat) (ev : Events) :
    (s.checkPaddleCollision n ev).1.scoreP1 = s.scoreP1 := by
  unfold Engine.checkPaddleCollision; split_ifs <;> rfl

@[simp] lemma checkPaddleCollision_scoreP2 (s : Engine) (n : Nat) (ev : Events) :
    (s.checkPaddleCollision n ev).1.scoreP2 = s.scoreP2 := by
  unfold Engine.checkPaddleCollision; split_ifs <;> rfl

@[simp] lemma checkPaddleCollision_pointsLimit (s : Engine) (n : Nat) (ev : Events) :
    (s.checkPaddleCollision n ev).1.pointsLimit = s.pointsLimit := by
  unfold Engine.checkPaddleCollision; split_ifs <;> rfl

@[simp] lemma checkPaddleCollision_winner (s : Engine) (n : Nat) (ev : Events) :
    (s.checkPaddleCollision n ev).1.winner = s.winner := by
  unfold Engine.checkPaddleCollision; split_ifs <;> rfl

@[simp] lemma checkPaddleCollision_p1Y (s : Engine) (n : Nat) (ev : Events) :
    (s.checkPaddleCollision n ev).1.p1Y = s.p1Y := by
  unfold Engine.checkPaddleCollision; split_ifs <;> rfl

@[simp] lemma checkPaddleCollision_p2Y (s : Engine) (n : Nat) (ev : Events) :
    (s.checkPaddleCollision n ev).1.p2Y = s.p2Y := by
  unfold Engine.checkPaddleCollision; split_ifs <;> rfl

@[simp] lemma checkPaddleCollision_ev_score (s : Engine) (n : Nat) (ev : Events) :
    (s.checkPaddleCollision n ev).2.score = ev.score := by
  unfold Engine.checkPaddleCollision; split_ifs <;> rfl

@[simp] lemma resetBall_status (s : Engine) (t : Nat) (a : ℝ) :
    (s.resetBall t a).status = s.status := rfl

@[simp] lemma resetBall_scoreP1 (s : Engine) (t : Nat) (a : ℝ) :
    (s.resetBall t a).scoreP1 = s.scoreP1 := rfl

@[simp] lemma resetBall_scoreP2 (s : Engine) (t : Nat) (a : ℝ) :
    (s.resetBall t a).scoreP2 = s.scoreP2 := rfl

@[simp] lemma resetBall_pointsLimit (s : Engine) (t : Nat) (a : ℝ) :
    (s.resetBall t a).pointsLimit = s.pointsLimit := rfl

@[simp] lemma resetBall_winner (s : Engine) (t : Nat) (a : ℝ) :
    (s.resetBall t a).winner = s.winner := rfl

@[simp] lemma resetBall_p1Y (s : Engine) (t : Nat) (a : ℝ) :
    (s.resetBall t a).p1Y = s.p1Y := rfl

@[simp] lemma resetBall_p2Y (s : Engine) (t : Nat) (a : ℝ) :
    (s.resetBall t a).p2Y = s.p2Y := rfl

@[simp] lemma resetBall_ballX (s : Engine) (t : Nat) (a : ℝ) :
    (s.resetBall t a).ballX = 50 := rfl

@[simp] lemma resetBall_ballY (s : Engine) (t : Nat) (a : ℝ) :
    (s.resetBall t a).ballY = 50 := rfl

@[simp] lemma handleScore_scoreP1 (s : Engine) (a : ℝ) :
    (s.handleScore a).scoreP1 = s.scoreP1 := by
  unfold Engine.handleScore; split_ifs <;> rfl

@[simp] lemma handleScore_scoreP2 (s : Engine) (a : ℝ) :
    (s.handleScore a).scoreP2 = s.scoreP2 := by
  unfold Engine.handleScore; split_ifs <;> rfl

@[simp] lemma handleScore_pointsLimit (s : Engine) (a : ℝ) :
    (s.handleScore a).pointsLimit = s.pointsLimit := by
  unfold Engine.handleScore; split_ifs <;> rfl

@[simp] lemma handleScore_p1Y (s : Engine) (a : ℝ) :
    (s.handleScore a).p1Y = s.p1Y := by
  unfold Engine.handleScore; split_ifs <;> rfl

@[simp] lemma handleScore_p2Y (s : Engine) (a : ℝ) :
    (s.handleScore a).p2Y = s.p2Y := by
  unfold Engine.handleScore; split_ifs <;> rfl

@[simp] lemma scoreStep_p1Y (s : Engine) (ev : Events) (a : ℝ) :
    (s.scoreStep ev a).1.p1Y = s.p1Y := by
  unfold Engine.scoreStep; split_ifs <;> simp

@[simp] lemma scoreStep_p2Y (s : Engine) (ev : Events) (a : ℝ) :
    (s.scoreStep ev a).1.p2Y = s.p2Y := by
  unfold Engine.scoreStep; split_ifs <;> simp

/-- Case analysis of `GameEngine._handle_score`. -/
lemma handleScore_cases (s : Engine) (a : ℝ) :
    (s.scoreP1 ≥ s.pointsLimit ∧
      s.handleScore a = { s with winner := some "Player 1", status := Status.finished })
    ∨ (s.scoreP1 < s.pointsLimit ∧ s.scoreP2 ≥ s.pointsLimit ∧
      s.handleScore a = { s with winner := some "Player 2", status := Status.finished })
    ∨ (s.scoreP1 < s.pointsLimit ∧ s.scoreP2 < s.pointsLimit ∧
      s.handleScore a = s.resetBall (if s.scoreP2 > s.scoreP1 then 1 else 2) a) := by
  unfold Engine.handleScore
  by_cases h1 : s.scoreP1 ≥ s.pointsLimit
  · rw [if_pos h1]; exact Or.inl ⟨h1, rfl⟩
  · rw [if_neg h1]
    by_cases h2 : s.scoreP2 ≥ s.pointsLimit
    · rw [if_pos h2]; exact Or.inr (Or.inl ⟨by omega, h2, rfl⟩)
    · rw [if_neg h2]; exact Or.inr (Or.inr ⟨by omega, by omega, rfl⟩)

/-- Status after `_handle_score` is either unchanged or `finished`. -/
lemma handleScore_status (s : Engine) (a : ℝ) :
    (s.handleScore a).status = s.status ∨ (s.handleScore a).status = Status.finished := by
  unfold Engine.handleScore; split_ifs <;> simp

/-- Unfolding of `update` on a `playing` state. -/
lemma update_playing (s : Engine) (dt a : ℝ) (h : s.status = Status.playing) :
    s.update dt a = Engine.updateBall (s.updatePaddles dt) dt initialEvents a := by
  unfold Engine.update
  rw [if_neg (by simp [h])]

/-- Claim C7: for every Engine state whose status is not `playing`
(`waiting_for_opponent`, `waiting_for_ready` or `finished`), calling
`update` leaves the state completely unchanged and returns the freshly
initialised event record: no paddle hit, no wall hit, no score.  In
particular paddle positions stay frozen once the match is finished. -/
theorem C7_update_noop (s : Engine) (dt a : ℝ) (h : s.status ≠ Status.playing) :
    s.update dt a = (s, initialEvents) ∧
    initialEvents.paddleHit = false ∧ initialEvents.wallHit = false ∧
    initialEvents.score = none := by
  refine ⟨?_, rfl, rfl, rfl⟩
  unfold Engine.update
  rw [if_pos h]

/-- Witness for C7 at a concrete non-playing state: the fresh engine of a
new room, whose status is `waiting_for_opponent`. -/
theorem C7_update_noop_witness :
    (Engine.init "ROOM" 5).update (1/60) 0 = (Engine.init "ROOM" 5, initialEvents) :=
  (C7_update_noop (Engine.init "ROOM" 5) (1/60) 0 (by simp [Engine.init])).1

/-- Claim C10: `update` ignores its `delta_time` argument entirely — for
any state and any two `delta_time` values (with the same random serve
draw) the resulting state and event record coincide.  Paddles move by the
fixed `PADDLE_SPEED` per tick and the ball by its per-tick velocity. -/
theorem C10_delta_time_unused (s : Engine) (dt1 dt2 a : ℝ) :
    s.update dt1 a = s.update dt2 a := rfl

/-!
Paddle clamping (claim C6).
-/

@[simp] lemma playerJoin_p1Y (s : Engine) (n : Nat) :
    ((s.playerJoin n).1).p1Y = s.p1Y := by
  simp only [Engine.playerJoin]; split_ifs <;> rfl

@[simp] lemma playerJoin_p2Y (s : Engine) (n : Nat) :
    ((s.playerJoin n).1).p2Y = s.p2Y := by
  simp only [Engine.playerJoin]; split_ifs <;> rfl

@[simp] lemma startGame_p1Y (s : Engine) (c : Nat) (a : ℝ) :
    (s.startGame c a).p1Y = s.p1Y := rfl

@[simp] lemma startGame_p2Y (s : Engine) (c : Nat) (a : ℝ) :
    (s.startGame c a).p2Y = s.p2Y := rfl

@[simp] lemma playerReady_p1Y (s : Engine) (n c : Nat) (a : ℝ) :
    (s.playerReady n c a).p1Y = s.p1Y := by
  simp only [Engine.playerReady]; split_ifs <;> rfl

@[simp] lemma playerReady_p2Y (s : Engine) (n c : Nat) (a : ℝ) :
    (s.playerReady n c a).p2Y = s.p2Y := by
  simp only [Engine.playerReady]; split_ifs <;> rfl

@[simp] lemma setPaddleDirection_p1Y (s : Engine) (n : Nat) (d : String) :
    (s.setPaddleDirection n d).p1Y = s.p1Y := by
  unfold Engine.setPaddleDirection; split_ifs <;> rfl

@[simp] lemma setPaddleDirection_p2Y (s : Engine) (n : Nat) (d : String) :
    (s.setPaddleDirection n d).p2Y = s.p2Y := by
  unfold Engine.setPaddleDirection; split_ifs <;> rfl

@[simp] lemma updateBall_p1Y (s : Engine) (dt : ℝ) (ev : Events) (a : ℝ) :
    (s.updateBall dt ev a).1.p1Y = s.p1Y := by
  unfold Engine.updateBall; simp

@[simp] lemma updateBall_p2Y (s : Engine) (dt : ℝ) (ev : Events) (a : ℝ) :
    (s.updateBall dt ev a).1.p2Y = s.p2Y := by
  unfold Engine.updateBall; simp

/-- The clamp at the end of `_update_paddles` forces player 1's paddle
into `[10, 90]` whatever the input position was. -/
lemma updatePaddles_p1Y_bounds (s : Engine) (dt : ℝ) :
    10 ≤ (s.updatePaddles dt).p1Y ∧ (s.updatePaddles dt).p1Y ≤ 90 := by
  have h10 : PADDLE_HEIGHT / 2 = (10 : ℝ) := by norm_num [PADDLE_HEIGHT]
  have h90 : FIELD_HEIGHT - PADDLE_HEIGHT / 2 = (90 : ℝ) := by
    norm_num [FIELD_HEIGHT, PADDLE_HEIGHT]
  show 10 ≤ max (PADDLE_HEIGHT / 2) _ ∧ max (PADDLE_HEIGHT / 2) _ ≤ 90
  rw [h90, h10]
  exact ⟨le_max_left _ _, max_le (by norm_num) (min_le_left _ _)⟩

/-- The clamp at the end of `_update_paddles` forces player 2's paddle
into `[10, 90]` whatever the input position was. -/
lemma updatePaddles_p2Y_bounds (s : Engine) (dt : ℝ) :
    10 ≤ (s.updatePaddles dt).p2Y ∧ (s.updatePaddles dt).p2Y ≤ 90 := by
  have h10 : PADDLE_HEIGHT / 2 = (10 : ℝ) := by norm_num [PADDLE_HEIGHT]
  have h90 : FIELD_HEIGHT - PADDLE_HEIGHT / 2 = (90 : ℝ) := by
    norm_num [FIELD_HEIGHT, PADDLE_HEIGHT]
  show 10 ≤ max (PADDLE_HEIGHT / 2) _ ∧ max (PADDLE_HEIGHT / 2) _ ≤ 90
  rw [h90, h10]
  exact ⟨le_max_left _ _, max_le (by norm_num) (min_le_left _ _)⟩

/-- Every operation keeps both paddles inside `[10, 90]` once they are
inside: non-`update` operations do not move paddles, and `update` either
leaves them (not playing) or clamps them. -/
lemma applyOp_paddle_bounds (s : Engine) (op : Op)
    (hp1 : 10 ≤ s.p1Y ∧ s.p1Y ≤ 90) (hp2 : 10 ≤ s.p2Y ∧ s.p2Y ≤ 90) :
    (10 ≤ (applyOp s op).p1Y ∧ (applyOp s op).p1Y ≤ 90) ∧
    (10 ≤ (applyOp s op).p2Y ∧ (applyOp s op).p2Y ≤ 90) := by
  cases op with
  | join n => simpa [applyOp] using ⟨hp1, hp2⟩
  | ready n c a => simpa [applyOp] using ⟨hp1, hp2⟩
  | setDir n d => simpa [applyOp] using ⟨hp1, hp2⟩
  | start c a => simpa [applyOp] using ⟨hp1, hp2⟩
  | upd dt a =>
    have hupd : applyOp s (Op.upd dt a) = (s.update dt a).1 := rfl
    rw [hupd]
    unfold Engine.update
    split_ifs with h
    · exact ⟨hp1, hp2⟩
    · constructor
      · simpa using updatePaddles_p1Y_bounds s dt
      · simpa using updatePaddles_p2Y_bounds s dt

/-- Claim C6: starting from the initial engine state, after every sequence
of operations (any updates interleaved with any direction inputs, joins,
readies and starts) both paddle centres lie within
`[half_paddle_height, field_height − half_paddle_height] = [10, 90]`. -/
theorem C6_paddles_clamped (code : String) (limit : Nat) (ops : List Op) :
    (10 ≤ (runOps (Engine.init code limit) ops).p1Y ∧
      (runOps (Engine.init code limit) ops).p1Y ≤ 90) ∧
    (10 ≤ (runOps (Engine.init code limit) ops).p2Y ∧
      (runOps (Engine.init code limit) ops).p2Y ≤ 90) := by
  have main : ∀ (l : List Op) (s : Engine),
      (10 ≤ s.p1Y ∧ s.p1Y ≤ 90) → (10 ≤ s.p2Y ∧ s.p2Y ≤ 90) →
      (10 ≤ (runOps s l).p1Y ∧ (runOps s l).p1Y ≤ 90) ∧
      (10 ≤ (runOps s l).p2Y ∧ (runOps s l).p2Y ≤ 90) := by
    intro l
    induction l with
    | nil => intro s h1 h2; exact ⟨h1, h2⟩
    | cons op rest ih =>
      intro s h1 h2
      obtain ⟨h1', h2'⟩ := applyOp_paddle_bounds s op h1 h2
      exact ih (applyOp s op) h1' h2'
  exact main ops (Engine.init code limit) (by norm_num [Engine.init]) (by norm_num [Engine.init])

/-!
Status monotonicity (claim C1).
-/

/-- Status after `player_join` is either unchanged or `waiting_for_ready`. -/
lemma playerJoin_status_cases (s : Engine) (n : Nat) :
    ((s.playerJoin n).1).status = s.status ∨
    ((s.playerJoin n).1).status = Status.waiting_for_ready := by
  simp only [Engine.playerJoin]
  split_ifs <;> simp

/-- Status after `player_ready` is either unchanged, or it was
`waiting_for_ready` and the game started. -/
lemma playerReady_status_cases (s : Engine) (n c : Nat) (a : ℝ) :
    (s.playerReady n c a).status = s.status ∨
    (s.status = Status.waiting_for_ready ∧
      (s.playerReady n c a).status = Status.playing) := by
  simp only [Engine.playerReady]
  split_ifs <;> simp_all [Engine.startGame]

@[simp] lemma setPaddleDirection_status (s : Engine) (n : Nat) (d : String) :
    (s.setPaddleDirection n d).status = s.status := by
  unfold Engine.setPaddleDirection; split_ifs <;> rfl

@[simp] lemma startGame_status (s : Engine) (c : Nat) (a : ℝ) :
    (s.startGame c a).status = Status.playing := rfl

/-- Status after one `update` tick is either unchanged or `finished`. -/
lemma update_status_cases (s : Engine) (dt a : ℝ) :
    (s.update dt a).1.status = s.status ∨
    (s.update dt a).1.status = Status.finished := by
  unfold Engine.update
  split_ifs with h
  · exact Or.inl rfl
  · simp only [Engine.updateBall, Engine.scoreStep]
    split_ifs with h1 h2
    · rcases handleScore_status _ a with h' | h'
      · left; rw [h']; simp
      · right; exact h'
    · rcases handleScore_status _ a with h' | h'
      · left; rw [h']; simp
      · right; exact h'
    · left; simp

/-- Guard under which claim C1 is provable: `player_join` only while the
match has not yet started, `start_game` only while it is not finished. -/
def okOp (s : Engine) : Op → Prop
  | Op.join _ =>
      s.status = Status.waiting_for_opponent ∨ s.status = Status.waiting_for_ready
  | Op.start _ _ => s.status ≠ Status.finished
  | _ => True

/-- A trace of operations each of which satisfies `okOp` at the state it
is applied to. -/
def okTrace : Engine → List Op → Prop
  | _, [] => True
  | s, op :: ops => okOp s op ∧ okTrace (applyOp s op) ops

/-- Rank never exceeds 3. -/
lemma rank_le_three (st : Status) : rank st ≤ 3 := by
  cases st <;> simp [rank]

/-- One guarded operation never decreases the status rank. -/
lemma applyOp_rank_mono (s : Engine) (op : Op) (h : okOp s op) :
    rank s.status ≤ rank (applyOp s op).status := by
  cases op with
  | join n =>
    rcases playerJoin_status_cases s n with h' | h'
    · show rank s.status ≤ rank ((s.playerJoin n).1).status
      rw [h']
    · show rank s.status ≤ rank ((s.playerJoin n).1).status
      rw [h']
      rcases h with h0 | h0 <;> simp [h0, rank]
  | ready n c a =>
    rcases playerReady_status_cases s n c a with h' | ⟨hw, h'⟩
    · show rank s.status ≤ rank (s.playerReady n c a).status
      rw [h']
    · show rank s.status ≤ rank (s.playerReady n c a).status
      rw [h', hw]; simp [rank]
  | setDir n d =>
    show rank s.status ≤ rank (s.setPaddleDirection n d).status
    simp
  | upd dt a =>
    rcases update_status_cases s dt a with h' | h'
    · show rank s.status ≤ rank (s.update dt a).1.status
      rw [h']
    · show rank s.status ≤ rank (s.update dt a).1.status
      rw [h']
      simpa [rank] using rank_le_three s.status
  | start c a =>
    show rank s.status ≤ rank (s.startGame c a).status
    rw [startGame_status]
    cases hs : s.status <;> simp_all [rank, okOp]

/-- Claim C1 (amended): along any trace of Engine operations in which
`player_join` is only invoked while the status is `waiting_for_opponent`
or `waiting_for_ready` and `start_game` is only invoked while the status
is not `finished`, the status rank along
`waiting_for_opponent → waiting_for_ready → playing → finished` never
decreases: the state machine only moves forward. -/
theorem C1_status_monotone_guarded (s : Engine) (ops : List Op)
    (h : okTrace s ops) :
    rank s.status ≤ rank (runOps s ops).status := by
  induction ops generalizing s with
  | nil => exact le_refl _
  | cons op rest ih =>
    obtain ⟨h1, h2⟩ := h
    calc rank s.status ≤ rank (applyOp s op).status := applyOp_rank_mono s op h1
      _ ≤ rank (runOps (applyOp s op) rest).status := ih (applyOp s op) h2

/-- Counterexample to claim C1 as stated: from the initial state, the
sequence join 1, join 2, ready 1, ready 2 reaches `playing`, and one
further `player_join 1` (a re-join, as the consumer performs when a
player reconnects) drags the status back to `waiting_for_ready` — a
regression of the state machine. -/
theorem C1_counterexample :
    (runOps (Engine.init "R" 5)
      [Op.join 1, Op.join 2, Op.ready 1 1 0, Op.ready 2 1 0]).status
        = Status.playing ∧
    (runOps (Engine.init "R" 5)
      [Op.join 1, Op.join 2, Op.ready 1 1 0, Op.ready 2 1 0, Op.join 1]).status
        = Status.waiting_for_ready := by
  constructor <;>
    simp [runOps, applyOp, Engine.init, Engine.playerJoin, Engine.playerReady,
      Engine.startGame, Engine.resetBall]

/-- Witness for the amended C1 at a concrete guarded trace: a normal
match start followed by an update tick, starting from the initial
state. -/
theorem C1_status_monotone_guarded_witness :
    okTrace (Engine.init "R" 5)
      [Op.join 1, Op.join 2, Op.ready 1 1 0, Op.ready 2 1 0, Op.upd (1/60) 0] ∧
    rank (Engine.init "R" 5).status ≤
      rank (runOps (Engine.init "R" 5)
        [Op.join 1, Op.join 2, Op.ready 1 1 0, Op.ready 2 1 0, Op.upd (1/60) 0]).status := by
  have hok : okTrace (Engine.init "R" 5)
      [Op.join 1, Op.join 2, Op.ready 1 1 0, Op.ready 2 1 0, Op.upd (1/60) 0] := by
    simp only [okTrace, okOp, applyOp]
    refine ⟨Or.inl rfl, ?_, trivial, trivial, trivial, trivial⟩
    simp [Engine.playerJoin, Engine.init]
  exact ⟨hok, C1_status_monotone_guarded _ _ hok⟩

/-!
Paddle-input policy (claim C8) and join/role assignment (claim C9).
-/

/-- Claim C8: a `move_paddle` message whose direction value is outside
{up, down, stop} is silently ignored — the engine state is unchanged and
no message (in particular no error) is sent; a direction inside
{up, down, stop} sent by an active player (role player, assigned slot 1
or 2) while the match is playing is stored verbatim as that player's
paddle direction, again with no message sent. -/
theorem C8_move_paddle_policy (conn : Conn) (re : Bool) (e : Engine)
    (d : String) (n : Nat) :
    (¬ (d = "up" ∨ d = "down" ∨ d = "stop") →
      handleMovePaddle conn re e d = (e, [])) ∧
    (conn.role = some "player" → conn.playerNum = some n → (n = 1 ∨ n = 2) →
      re = true → e.status = Status.playing →
      (d = "up" ∨ d = "down" ∨ d = "stop") →
      (handleMovePaddle conn re e d).2 = [] ∧
      (n = 1 → (handleMovePaddle conn re e d).1.p1Direction = d) ∧
      (n = 2 → (handleMovePaddle conn re e d).1.p2Direction = d)) := by
  constructor
  · intro hd
    unfold handleMovePaddle
    split_ifs with h1 h2 h3 <;> rfl
  · intro hrole hpn hn hre hst hd
    have hg1 : ¬ (conn.role ≠ some "player" ∨ conn.playerNum = none ∨
        conn.playerNum = some 0) := by
      rcases hn with h | h <;> simp [hrole, hpn, h]
    unfold handleMovePaddle
    rw [if_neg hg1, if_neg (by simp [hre]), if_neg (by simp [hst]),
      if_neg (not_not_intro hd), hpn]
    refine ⟨rfl, ?_, ?_⟩ <;> intro hne <;> subst hne <;>
      simp [Engine.setPaddleDirection]

/-- Concrete playing engine used by the consumer-layer witnesses. -/
def enginePlaying : Engine := { Engine.init "R" 5 with status := Status.playing }

/-- Concrete connection state of player 1. -/
def connP1 : Conn := { role := some "player", playerNum := some 1 }

/-- Witness for C8 at concrete inputs: the invalid direction value
"diagonal" is ignored without any reply, and the valid value "up" is
stored verbatim for player 1. -/
theorem C8_move_paddle_policy_witness :
    handleMovePaddle connP1 true enginePlaying "diagonal" = (enginePlaying, []) ∧
    (handleMovePaddle connP1 true enginePlaying "up").1.p1Direction = "up" := by
  constructor
  · exact (C8_move_paddle_policy connP1 true enginePlaying "diagonal" 1).1 (by simp)
  · exact ((C8_move_paddle_policy connP1 true enginePlaying "up" 1).2 rfl rfl
      (Or.inl rfl) rfl rfl (Or.inl rfl)).2.1 rfl

/-- Claim C9: a `join_game` request with role player on a room whose two
player slots are both occupied is downgraded to observer — the connection
gets role observer and exactly the `joined_as_observer` acknowledgment,
never `joined_as_player`; when a slot is free, slot 1 is assigned if
free, otherwise slot 2, with the matching `joined_as_player`
acknowledgment. -/
theorem C9_join_role_assignment (roomCode chan : String) (conn : Conn)
    (room : Room) :
    ((room.player1 ≠ none ∧ room.player2 ≠ none) →
      (handleJoinGame roomCode chan conn (some room) "player").conn.role
          = some "observer" ∧
      (handleJoinGame roomCode chan conn (some room) "player").selfMsgs
          = [ServerMsg.joinedAsObserver roomCode]) ∧
    (room.player1 = none →
      (handleJoinGame roomCode chan conn (some room) "player").conn.playerNum
          = some 1 ∧
      (handleJoinGame roomCode chan conn (some room) "player").conn.role
          = some "player" ∧
      (handleJoinGame roomCode chan conn (some room) "player").selfMsgs
          = [ServerMsg.joinedAsPlayer (some 1) roomCode]) ∧
    ((room.player1 ≠ none ∧ room.player2 = none) →
      (handleJoinGame roomCode chan conn (some room) "player").conn.playerNum
          = some 2 ∧
      (handleJoinGame roomCode chan conn (some room) "player").selfMsgs
          = [ServerMsg.joinedAsPlayer (some 2) roomCode]) := by
  refine ⟨?_, ?_, ?_⟩
  · intro ⟨h1, h2⟩
    simp [handleJoinGame, h1, h2]
  · intro h1
    simp [handleJoinGame, h1]
  · intro ⟨h1, h2⟩
    simp [handleJoinGame, h1, h2]

/-- Concrete full room: both slots taken. -/
def roomFull : Room :=
  { engine := some (Engine.init "R" 5), player1 := some "chanA",
    player2 := some "chanB", observers := [] }

/-- Concrete empty room: both slots free. -/
def roomEmpty : Room :=
  { engine := none, player1 := none, player2 := none, observers := [] }

/-- Concrete half-filled room: slot 1 taken, slot 2 free. -/
def roomHalf : Room :=
  { engine := some (Engine.init "R" 5), player1 := some "chanA",
    player2 := none, observers := [] }

/-- Concrete fresh connection. -/
def connNew : Conn := { role := none, playerNum := none }

/-- Witness for C9 at concrete rooms: a full room downgrades the third
player-join to observer, an empty room assigns slot 1, and a half-filled
room assigns slot 2. -/
theorem C9_join_role_assignment_witness :
    ((handleJoinGame "R" "c" connNew (some roomFull) "player").conn.role
        = some "observer" ∧
      (handleJoinGame "R" "c" connNew (some roomFull) "player").selfMsgs
        = [ServerMsg.joinedAsObserver "R"]) ∧
    (handleJoinGame "R" "c" connNew (some roomEmpty) "player").conn.playerNum
        = some 1 ∧
    (handleJoinGame "R" "c" connNew (some roomHalf) "player").conn.playerNum
        = some 2 := by
  refine ⟨?_, ?_, ?_⟩
  · exact (C9_join_role_assignment "R" "c" connNew roomFull).1
      (by simp [roomFull])
  · exact ((C9_join_role_assignment "R" "c" connNew roomEmpty).2.1
      (by simp [roomEmpty])).1
  · exact ((C9_join_role_assignment "R" "c" connNew roomHalf).2.2
      (by simp [roomHalf])).1

/-!
Scoring and the finish condition (claims C2 and C4).
-/

/-- Score of player `p` (player 1 or player 2) in a state. -/
def scoreOfPlayer (s : Engine) (p : Nat) : Nat :=
  if p = 1 then s.scoreP1 else s.scoreP2

/-- Behaviour of the scoring check on a tick that emits a score event,
starting from a state where neither score has reached the limit yet: the
match finishes exactly when the scorer's new score equals the points
limit, and then the winner is that player and only that player's score
equals the limit. -/
lemma scoreStep_spec (c : Engine) (ev : Events) (a : ℝ) (p : Nat)
    (hevpre : ev.score = none)
    (hst : c.status = Status.playing)
    (h1 : c.scoreP1 < c.pointsLimit) (h2 : c.scoreP2 < c.pointsLimit)
    (hev : (c.scoreStep ev a).2.score = some p) :
    ((c.scoreStep ev a).1.status = Status.finished ↔
      scoreOfPlayer (c.scoreStep ev a).1 p = c.pointsLimit) ∧
    ((c.scoreStep ev a).1.status = Status.finished →
      (c.scoreStep ev a).1.winner
          = some (if p = 1 then "Player 1" else "Player 2") ∧
      scoreOfPlayer (c.scoreStep ev a).1 p = c.pointsLimit ∧
      scoreOfPlayer (c.scoreStep ev a).1 (3 - p) < c.pointsLimit) := by
  unfold Engine.scoreStep at hev ⊢
  by_cases hx0 : c.ballX ≤ 0
  case pos =>
    rw [if_pos hx0] at hev ⊢
    -- ball crossed x = 0: player 2 scores
    have hp : p = 2 := by have h := hev; simp at h; omega
    subst hp
    rcases handleScore_cases { c with scoreP2 := c.scoreP2 + 1 } a with
      ⟨hge, heq⟩ | ⟨hlt, hge, heq⟩ | ⟨hlt1, hlt2, heq⟩
    · exfalso; simp at hge; omega
    · rw [heq]
      have hge' : c.scoreP2 + 1 ≥ c.pointsLimit := by simpa using hge
      have heq2 : c.scoreP2 + 1 = c.pointsLimit := by omega
      refine ⟨?_, fun _ => ⟨by norm_num, ?_, ?_⟩⟩
      · simp [scoreOfPlayer, heq2]
      · simp [scoreOfPlayer, heq2]
      · simp only [scoreOfPlayer]
        norm_num
        exact h1
    · rw [heq]
      have hlt2' : c.scoreP2 + 1 < c.pointsLimit := by simpa using hlt2
      constructor
      · simp [hst, scoreOfPlayer]
        omega
      · intro hfin
        exfalso
        simp [hst] at hfin
  case neg =>
    rw [if_neg hx0] at hev ⊢
    by_cases hx100 : c.ballX ≥ FIELD_WIDTH
    case neg =>
      rw [if_neg hx100] at hev
      simp [hevpre] at hev
    case pos =>
    rw [if_pos hx100] at hev ⊢
    -- ball crossed x = FIELD_WIDTH: player 1 scores
    have hp : p = 1 := by have h := hev; simp at h; omega
    subst hp
    rcases handleScore_cases { c with scoreP1 := c.scoreP1 + 1 } a with
      ⟨hge, heq⟩ | ⟨hlt, hge, heq⟩ | ⟨hlt1, hlt2, heq⟩
    · rw [heq]
      have hge' : c.scoreP1 + 1 ≥ c.pointsLimit := by simpa using hge
      have heq2 : c.scoreP1 + 1 = c.pointsLimit := by omega
      refine ⟨?_, fun _ => ⟨by norm_num, ?_, ?_⟩⟩
      · simp [scoreOfPlayer, heq2]
      · simp [scoreOfPlayer, heq2]
      · simp only [scoreOfPlayer]
        norm_num
        exact h2
    · exfalso; simp at hge; omega
    · rw [heq]
      have hlt1' : c.scoreP1 + 1 < c.pointsLimit := by simpa using hlt1
      constructor
      · simp [hst, scoreOfPlayer]
        omega
      · intro hfin
        exfalso
        simp [hst] at hfin

/-- Lift of `scoreStep_spec` through the whole `_update_ball` pipeline. -/
lemma updateBall_spec (s0 : Engine) (dt a : ℝ) (ev : Events) (p : Nat)
    (hevpre : ev.score = none) (hst : s0.status = Status.playing)
    (h1 : s0.scoreP1 < s0.pointsLimit) (h2 : s0.scoreP2 < s0.pointsLimit)
    (hev : (s0.updateBall dt ev a).2.score = some p) :
    ((s0.updateBall dt ev a).1.status = Status.finished ↔
      scoreOfPlayer (s0.updateBall dt ev a).1 p = s0.pointsLimit) ∧
    ((s0.updateBall dt ev a).1.status = Status.finished →
      (s0.updateBall dt ev a).1.winner
          = some (if p = 1 then "Player 1" else "Player 2") ∧
      scoreOfPlayer (s0.updateBall dt ev a).1 p = s0.pointsLimit ∧
      scoreOfPlayer (s0.updateBall dt ev a).1 (3 - p) < s0.pointsLimit) := by
  simp only [Engine.updateBall] at hev ⊢
  have h := scoreStep_spec _ _ a p (by simp [hevpre]) (by simp [hst])
    (by simpa using h1) (by simpa using h2) hev
  simpa using h

/-- Claim C2: from any playing state where neither score has reached the
positive points limit yet (in particular any state reached by single
score increments from a fresh playing state), a tick that emits a score
event for player p finishes the match iff p's new score equals the
points limit, and then winner is that player and exactly p's score
equals the limit while the opponent's stays below it. -/
theorem C2_finish_iff (s : Engine) (dt a : ℝ) (p : Nat)
    (hst : s.status = Status.playing)
    (h1 : s.scoreP1 < s.pointsLimit) (h2 : s.scoreP2 < s.pointsLimit)
    (hev : (s.update dt a).2.score = some p) :
    ((s.update dt a).1.status = Status.finished ↔
      scoreOfPlayer (s.update dt a).1 p = s.pointsLimit) ∧
    ((s.update dt a).1.status = Status.finished →
      (s.update dt a).1.winner
          = some (if p = 1 then "Player 1" else "Player 2") ∧
      scoreOfPlayer (s.update dt a).1 p = s.pointsLimit ∧
      scoreOfPlayer (s.update dt a).1 (3 - p) < s.pointsLimit) := by
  rw [update_playing s dt a hst] at hev ⊢
  have h := updateBall_spec (s.updatePaddles dt) dt a initialEvents p rfl
    (by simpa using hst) (by simpa using h1) (by simpa using h2) hev
  simpa using h

/-- On a scoring tick that does not finish the match the ball is reset
to the field centre. -/
lemma scoreStep_ball_reset (c : Engine) (ev : Events) (a : ℝ) (p : Nat)
    (hevpre : ev.score = none)
    (hev : (c.scoreStep ev a).2.score = some p)
    (hnf : (c.scoreStep ev a).1.status ≠ Status.finished) :
    (c.scoreStep ev a).1.ballX = 50 ∧ (c.scoreStep ev a).1.ballY = 50 := by
  unfold Engine.scoreStep at hev hnf ⊢
  split_ifs at hev hnf ⊢ with hx0 hx100
  · rcases handleScore_cases { c with scoreP2 := c.scoreP2 + 1 } a with
      ⟨_, heq⟩ | ⟨_, _, heq⟩ | ⟨_, _, heq⟩
    · rw [heq] at hnf; simp at hnf
    · rw [heq] at hnf; simp at hnf
    · rw [heq]; simp
  · rcases handleScore_cases { c with scoreP1 := c.scoreP1 + 1 } a with
      ⟨_, heq⟩ | ⟨_, _, heq⟩ | ⟨_, _, heq⟩
    · rw [heq] at hnf; simp at hnf
    · rw [heq] at hnf; simp at hnf
    · rw [heq]; simp
  · simp [hevpre] at hev

/-- Claim C4 (amended): on every update tick that emits a score event and
does not finish the match, the ball position immediately after the tick
is exactly (50, 50).  On the winning tick the code takes the
finished branch of `_handle_score`, which does not call `reset_ball`, so
the ball stays past the goal line there. -/
theorem C4_ball_reset_nonfinal (s : Engine) (dt a : ℝ) (p : Nat)
    (hev : (s.update dt a).2.score = some p)
    (hnf : (s.update dt a).1.status ≠ Status.finished) :
    (s.update dt a).1.ballX = 50 ∧ (s.update dt a).1.ballY = 50 := by
  by_cases hst : s.status = Status.playing
  · rw [update_playing s dt a hst] at hev hnf ⊢
    simp only [Engine.updateBall] at hev hnf ⊢
    exact scoreStep_ball_reset _ _ a p (by simp [initialEvents]) hev hnf
  · rw [show s.update dt a = (s, initialEvents) from by
      unfold Engine.update; rw [if_pos hst]] at hev
    simp [initialEvents] at hev

/-!
Concrete scoring scenarios.  `sWin` is the spec's scenario state
(points_limit 5, score_p1 = 4, a tick about to score for player 1);
`sMid` is the same tick with score_p1 = 0 and score_p2 = 3, so the score
does not finish the match.  In both, the ball is at (98.5, 10) moving
right at (1.5, 0), away from paddle 2 which sits at y = 50.
-/

/-- Playing state one tick before player 1's winning point. -/
def sWin : Engine :=
  { roomCode := "R", pointsLimit := 5, status := Status.playing,
    player1Ready := true, player2Ready := true,
    player1Connected := true, player2Connected := true,
    scoreP1 := 4, scoreP2 := 0, winner := none,
    p1Y := 50, p2Y := 50, p1Direction := "stop", p2Direction := "stop",
    ballX := 98.5, ballY := 10, ballVelocityX := 1.5, ballVelocityY := 0,
    ballSpeed := 0.8 }

/-- Result of the winning tick on `sWin`: score 5, finished, winner
Player 1, ball left at (100, 10) — not reset. -/
def sWinRes : Engine :=
  { roomCode := "R", pointsLimit := 5, status := Status.finished,
    player1Ready := true, player2Ready := true,
    player1Connected := true, player2Connected := true,
    scoreP1 := 5, scoreP2 := 0, winner := some "Player 1",
    p1Y := 50, p2Y := 50, p1Direction := "stop", p2Direction := "stop",
    ballX := 100, ballY := 10, ballVelocityX := 1.5, ballVelocityY := 0,
    ballSpeed := 0.8 }

/-- Playing state one tick before a non-terminal point for player 1,
with player 2 leading 3 to 0. -/
def sMid : Engine :=
  { roomCode := "R", pointsLimit := 5, status := Status.playing,
    player1Ready := true, player2Ready := true,
    player1Connected := true, player2Connected := true,
    scoreP1 := 0, scoreP2 := 3, winner := none,
    p1Y := 50, p2Y := 50, p1Direction := "stop", p2Direction := "stop",
    ballX := 98.5, ballY := 10, ballVelocityX := 1.5, ballVelocityY := 0,
    ballSpeed := 0.8 }

/-- Result of the scoring tick on `sMid` (serve angle draw 0): score
1 - 3, still playing, ball reset to centre, and — because
`_handle_score` serves to whichever player is behind — the serve goes
toward player 1 (negative x velocity), the player who just scored. -/
def sMidRes : Engine :=
  { roomCode := "R", pointsLimit := 5, status := Status.playing,
    player1Ready := true, player2Ready := true,
    player1Connected := true, player2Connected := true,
    scoreP1 := 1, scoreP2 := 3, winner := none,
    p1Y := 50, p2Y := 50, p1Direction := "stop", p2Direction := "stop",
    ballX := 50, ballY := 50, ballVelocityX := -0.8, ballVelocityY := 0,
    ballSpeed := 0.8 }

/-- Full evaluation of the winning tick. -/
lemma sWin_update_eval :
    sWin.update (1/60) 0 = (sWinRes, { initialEvents with score := some 1 }) := by
  simp [Engine.update, Engine.updateBall, Engine.updatePaddles, Engine.moveBall,
    Engine.wallBounce, Engine.checkPaddleCollision, Engine.movingToward,
    Engine.aabbOverlap, Engine.scoreStep, Engine.handleScore, Engine.resetBall,
    Engine.paddleYOf, paddleXOf, sWin, sWinRes, initialEvents,
    FIELD_WIDTH, FIELD_HEIGHT, PADDLE_WIDTH, PADDLE_HEIGHT, BALL_SIZE,
    INITIAL_BALL_SPEED, PADDLE_SPEED, SPEED_INCREASE_FACTOR, MAX_BALL_SPEED,
    Engine.mk.injEq, Prod.ext_iff, Events.mk.injEq]
  all_goals norm_num

/-- Full evaluation of the non-terminal scoring tick (serve angle 0). -/
lemma sMid_update_eval :
    sMid.update (1/60) 0 = (sMidRes, { initialEvents with score := some 1 }) := by
  simp [Engine.update, Engine.updateBall, Engine.updatePaddles, Engine.moveBall,
    Engine.wallBounce, Engine.checkPaddleCollision, Engine.movingToward,
    Engine.aabbOverlap, Engine.scoreStep, Engine.handleScore, Engine.resetBall,
    Engine.paddleYOf, paddleXOf, sMid, sMidRes, initialEvents,
    FIELD_WIDTH, FIELD_HEIGHT, PADDLE_WIDTH, PADDLE_HEIGHT, BALL_SIZE,
    INITIAL_BALL_SPEED, PADDLE_SPEED, SPEED_INCREASE_FACTOR, MAX_BALL_SPEED,
    Engine.mk.injEq, Prod.ext_iff, Events.mk.injEq, Real.cos_zero, Real.sin_zero]
  all_goals norm_num

/-- Witness for C2 at the spec's concrete scenario: points_limit 5,
score_p1 = 4, a scoring tick for player 1 gives score_p1 = 5, status
finished and winner Player 1. -/
theorem C2_finish_iff_witness :
    (sWin.update (1/60) 0).2.score = some 1 ∧
    ((sWin.update (1/60) 0).1.status = Status.finished ↔
      scoreOfPlayer (sWin.update (1/60) 0).1 1 = sWin.pointsLimit) ∧
    (sWin.update (1/60) 0).1.status = Status.finished ∧
    (sWin.update (1/60) 0).1.scoreP1 = 5 ∧
    (sWin.update (1/60) 0).1.winner = some "Player 1" := by
  have hev : (sWin.update (1/60) 0).2.score = some 1 := by
    rw [sWin_update_eval]
  refine ⟨hev,
    (C2_finish_iff sWin (1/60) 0 1 rfl (by norm_num [sWin]) (by norm_num [sWin]) hev).1,
    ?_, ?_, ?_⟩ <;> rw [sWin_update_eval] <;> rfl

/-- Claim C3 evaluated at its failing input: with score 0 - 3, player 1
scores (match continues), yet the fresh serve is directed toward player
1, the player who just scored — `_handle_score` computes `serve_to = 1
if score_p2 > score_p1 else 2`, i.e. serves to whichever player is
behind, contradicting both the claim and the code's own comment
"serve to the player who was scored on" (which would require the serve
toward player 2, positive x velocity). -/
theorem C3_serve_direction_divergence :
    (sMid.update (1/60) 0).2.score = some 1 ∧
    (sMid.update (1/60) 0).1.status = Status.playing ∧
    (sMid.update (1/60) 0).1.ballVelocityX = -0.8 ∧
    ((-0.8 : ℝ) < 0) := by
  refine ⟨?_, ?_, ?_, by norm_num⟩ <;> rw [sMid_update_eval] <;> rfl

/-- Counterexample to claim C4 as stated: on the tick on which the
winning point is scored the ball is not reset — it stays at (100, 10),
past the goal line, because the finished branch of `_handle_score` never
calls `reset_ball`. -/
theorem C4_counterexample :
    (sWin.update (1/60) 0).2.score = some 1 ∧
    (sWin.update (1/60) 0).1.status = Status.finished ∧
    (sWin.update (1/60) 0).1.ballX = 100 ∧
    ((100 : ℝ) ≠ 50) := by
  refine ⟨?_, ?_, ?_, by norm_num⟩ <;> rw [sWin_update_eval] <;> rfl

/-- Witness for the amended C4 at a concrete non-terminal scoring tick:
player 1 scores at 0 - 3, the match goes on, and the ball is back at
(50, 50). -/
theorem C4_ball_reset_nonfinal_witness :
    (sMid.update (1/60) 0).2.score = some 1 ∧
    (sMid.update (1/60) 0).1.status ≠ Status.finished ∧
    (sMid.update (1/60) 0).1.ballX = 50 ∧ (sMid.update (1/60) 0).1.ballY = 50 := by
  have hev : (sMid.update (1/60) 0).2.score = some 1 := by
    rw [sMid_update_eval]
  have hnf : (sMid.update (1/60) 0).1.status ≠ Status.finished := by
    rw [sMid_update_eval]; simp [sMidRes]
  exact ⟨hev, hnf, C4_ball_reset_nonfinal sMid (1/60) 0 1 hev hnf⟩

/-!
Ball speed growth on paddle collisions (claim C5).
-/

/-- Renormalising a non-zero velocity vector to the clamped grown speed
gives a vector whose magnitude is exactly that clamped grown speed. -/
lemma renorm_speed_eq (vx vy : ℝ) (hvx : vx ≠ 0) :
    Real.sqrt
      ((if Real.sqrt (vx ^ 2 + vy ^ 2) > 0 then
          vx / Real.sqrt (vx ^ 2 + vy ^ 2) *
            min (Real.sqrt (vx ^ 2 + vy ^ 2) * SPEED_INCREASE_FACTOR) MAX_BALL_SPEED
        else vx) ^ 2 +
       (if Real.sqrt (vx ^ 2 + vy ^ 2) > 0 then
          vy / Real.sqrt (vx ^ 2 + vy ^ 2) *
            min (Real.sqrt (vx ^ 2 + vy ^ 2) * SPEED_INCREASE_FACTOR) MAX_BALL_SPEED
        else vy) ^ 2) =
      min (Real.sqrt (vx ^ 2 + vy ^ 2) * SPEED_INCREASE_FACTOR) MAX_BALL_SPEED := by
  set cs := Real.sqrt (vx ^ 2 + vy ^ 2) with hcsdef
  have hcs : 0 < cs := by
    rw [hcsdef]
    apply Real.sqrt_pos.mpr
    nlinarith [sq_nonneg vy, pow_two_pos_of_ne_zero hvx]
  have hcssq : cs ^ 2 = vx ^ 2 + vy ^ 2 := by
    rw [hcsdef]; exact Real.sq_sqrt (by positivity)
  set ns := min (cs * SPEED_INCREASE_FACTOR) MAX_BALL_SPEED with hnsdef
  have hns : 0 ≤ ns := by
    rw [hnsdef]
    apply le_min
    · have : (0:ℝ) ≤ SPEED_INCREASE_FACTOR := by norm_num [SPEED_INCREASE_FACTOR]
      exact mul_nonneg (le_of_lt hcs) this
    · norm_num [MAX_BALL_SPEED]
  rw [if_pos hcs, if_pos hcs]
  have hcne : cs ≠ 0 := ne_of_gt hcs
  have key : (vx / cs * ns) ^ 2 + (vy / cs * ns) ^ 2 = ns ^ 2 := by
    field_simp
    rw [hcssq]
    ring
  rw [key, Real.sqrt_sq hns]

/-- Claim C5 (amended): on every collision-handling step on which a
paddle collision is detected, the ball's velocity magnitude immediately
after the handling equals `min(post_spin_speed × growth_factor,
max_speed)`, where `post_spin_speed` is the magnitude after the
horizontal bounce and the vertical spin adjustment (the source's
`current_speed`) — it equals the pre-collision magnitude only for a
centre hit with no spin. -/
theorem C5_speed_growth (s : Engine) (n : Nat) (ev : Events)
    (hc : s.collisionDetected n) :
    Engine.ballSpeedMag (s.checkPaddleCollision n ev).1 =
      min (s.postSpinSpeed n * SPEED_INCREASE_FACTOR) MAX_BALL_SPEED := by
  obtain ⟨hm, ho⟩ := hc
  have hvne : s.ballVelocityX ≠ 0 := by
    unfold Engine.movingToward at hm
    split_ifs at hm
    · exact ne_of_lt hm
    · exact ne_of_gt hm
  unfold Engine.checkPaddleCollision
  rw [if_neg (not_not_intro hm), if_pos ho]
  unfold Engine.ballSpeedMag Engine.postSpinSpeed
  dsimp only
  exact renorm_speed_eq _ _ (neg_ne_zero.mpr hvne)

/-- Playing state one tick before a paddle-1 collision with spin: ball
at (4.7, 50) moving left at (-1.2, 0), paddle 1 at y = 40 so the ball
hits the lower edge region (hit offset +1). -/
def sColl : Engine :=
  { roomCode := "R", pointsLimit := 5, status := Status.playing,
    player1Ready := true, player2Ready := true,
    player1Connected := true, player2Connected := true,
    scoreP1 := 0, scoreP2 := 0, winner := none,
    p1Y := 40, p2Y := 50, p1Direction := "stop", p2Direction := "stop",
    ballX := 4.7, ballY := 50, ballVelocityX := -1.2, ballVelocityY := 0,
    ballSpeed := 0.8 }

/-- State of `sColl` after the paddle move and ball move of the tick,
immediately before the collision check. -/
def mColl : Engine :=
  { roomCode := "R", pointsLimit := 5, status := Status.playing,
    player1Ready := true, player2Ready := true,
    player1Connected := true, player2Connected := true,
    scoreP1 := 0, scoreP2 := 0, winner := none,
    p1Y := 40, p2Y := 50, p1Direction := "stop", p2Direction := "stop",
    ballX := 3.5, ballY := 50, ballVelocityX := -1.2, ballVelocityY := 0,
    ballSpeed := 0.8 }

/-- State after the collision handling: spin made the velocity (1.2, 0.5)
of magnitude 1.3, grown by 5% to 1.365 and renormalised to
(1.26, 0.525); the ball is nudged to x = 4.1. -/
def cColl : Engine :=
  { roomCode := "R", pointsLimit := 5, status := Status.playing,
    player1Ready := true, player2Ready := true,
    player1Connected := true, player2Connected := true,
    scoreP1 := 0, scoreP2 := 0, winner := none,
    p1Y := 40, p2Y := 50, p1Direction := "stop", p2Direction := "stop",
    ballX := 4.1, ballY := 50, ballVelocityX := 1.26, ballVelocityY := 0.525,
    ballSpeed := 0.8 }

/-- Paddle move and ball move of the `sColl` tick. -/
lemma sColl_premove :
    ((sColl.updatePaddles (1/60)).moveBall.wallBounce initialEvents)
      = (mColl, initialEvents) := by
  simp [Engine.updatePaddles, Engine.moveBall, Engine.wallBounce,
    sColl, mColl, initialEvents, FIELD_HEIGHT, PADDLE_HEIGHT, PADDLE_SPEED,
    BALL_SIZE, Engine.mk.injEq, Prod.ext_iff, Events.mk.injEq]
  all_goals norm_num

/-- The ball of `mColl` is moving toward paddle 1. -/
lemma mColl_moving : mColl.movingToward 1 := by
  norm_num [Engine.movingToward, mColl]

/-- The ball of `mColl` overlaps paddle 1. -/
lemma mColl_overlap : mColl.aabbOverlap 1 := by
  norm_num [Engine.aabbOverlap, mColl, paddleXOf, Engine.paddleYOf,
    PADDLE_WIDTH, PADDLE_HEIGHT, BALL_SIZE]

/-- Value of the source's `current_speed` at the `mColl` collision:
`sqrt((1.2)^2 + (0.5)^2) = sqrt(1.69) = 1.3`. -/
lemma mColl_sqrt_raw :
    Real.sqrt ((-mColl.ballVelocityX) ^ 2 +
      (mColl.ballVelocityY +
        (mColl.ballY - mColl.paddleYOf 1) / (PADDLE_HEIGHT / 2) * 0.5) ^ 2) = 1.3 := by
  rw [show (-mColl.ballVelocityX) ^ 2 +
      (mColl.ballVelocityY +
        (mColl.ballY - mColl.paddleYOf 1) / (PADDLE_HEIGHT / 2) * 0.5) ^ 2
      = (1.3 : ℝ) ^ 2 from by
    norm_num [mColl, Engine.paddleYOf, PADDLE_HEIGHT]]
  exact Real.sqrt_sq (by norm_num)

/-- Post-spin speed of the `mColl` collision is 1.3. -/
lemma mColl_postSpin : mColl.postSpinSpeed 1 = 1.3 := by
  unfold Engine.postSpinSpeed
  exact mColl_sqrt_raw

/-- Full evaluation of the collision handling at `mColl`. -/
lemma mColl_collision_eval :
    mColl.checkPaddleCollision 1 initialEvents
      = (cColl, { initialEvents with paddleHit := true }) := by
  unfold Engine.checkPaddleCollision
  rw [if_neg (not_not_intro mColl_moving), if_pos mColl_overlap]
  dsimp only
  rw [mColl_sqrt_raw]
  norm_num [mColl, cColl, Engine.paddleYOf, paddleXOf, PADDLE_WIDTH,
    PADDLE_HEIGHT, BALL_SIZE, SPEED_INCREASE_FACTOR, MAX_BALL_SPEED,
    initialEvents, Engine.mk.injEq, Prod.ext_iff, Events.mk.injEq]

/-- The bounced ball moves toward paddle 2 but is far from it. -/
lemma cColl_cpc2 :
    cColl.checkPaddleCollision 2 { initialEvents with paddleHit := true }
      = (cColl, { initialEvents with paddleHit := true }) := by
  have hmov2 : cColl.movingToward 2 := by
    norm_num [Engine.movingToward, cColl]
  have hnab : ¬ cColl.aabbOverlap 2 := by
    norm_num [Engine.aabbOverlap, cColl, paddleXOf, Engine.paddleYOf,
      FIELD_WIDTH, PADDLE_WIDTH, PADDLE_HEIGHT, BALL_SIZE]
  unfold Engine.checkPaddleCollision
  rw [if_neg (not_not_intro hmov2), if_neg hnab]

/-- No score on the collision tick: the ball sits at x = 4.1. -/
lemma cColl_score :
    cColl.scoreStep { initialEvents with paddleHit := true } 0
      = (cColl, { initialEvents with paddleHit := true }) := by
  unfold Engine.scoreStep
  rw [if_neg (by norm_num [cColl]), if_neg (by norm_num [cColl, FIELD_WIDTH])]

/-- Full evaluation of the collision tick from `sColl`. -/
lemma sColl_update_eval :
    sColl.update (1/60) 0 = (cColl, { initialEvents with paddleHit := true }) := by
  rw [update_playing sColl (1/60) 0 rfl]
  simp only [Engine.updateBall]
  rw [sColl_premove]
  dsimp only
  rw [mColl_collision_eval]
  dsimp only
  rw [cColl_cpc2]
  dsimp only
  exact cColl_score

/-- Counterexample to claim C5 as stated: on the `sColl` tick a paddle
collision is detected, the pre-collision speed magnitude is 1.2, the
claim's value `min(1.2 × 1.05, 3.0)` is 1.26, but the actual magnitude
after the collision handling is 1.365 — the growth factor is applied to
the post-spin magnitude 1.3, not to the pre-collision magnitude. -/
theorem C5_counterexample :
    (sColl.update (1/60) 0).2.paddleHit = true ∧
    Engine.ballSpeedMag sColl = 1.2 ∧
    Engine.ballSpeedMag (sColl.update (1/60) 0).1 = 1.365 ∧
    min ((1.2 : ℝ) * SPEED_INCREASE_FACTOR) MAX_BALL_SPEED = 1.26 ∧
    ((1.365 : ℝ) ≠ 1.26) := by
  refine ⟨?_, ?_, ?_, ?_, by norm_num⟩
  · rw [sColl_update_eval]
  · unfold Engine.ballSpeedMag
    rw [show sColl.ballVelocityX ^ 2 + sColl.ballVelocityY ^ 2 = (1.2 : ℝ) ^ 2 from by
      norm_num [sColl]]
    exact Real.sqrt_sq (by norm_num)
  · rw [sColl_update_eval]
    unfold Engine.ballSpeedMag
    dsimp only
    rw [show cColl.ballVelocityX ^ 2 + cColl.ballVelocityY ^ 2 = (1.365 : ℝ) ^ 2 from by
      norm_num [cColl]]
    exact Real.sqrt_sq (by norm_num)
  · norm_num [SPEED_INCREASE_FACTOR, MAX_BALL_SPEED]

/-- Witness for the amended C5 at the concrete `mColl` collision. -/
theorem C5_speed_growth_witness :
    mColl.collisionDetected 1 ∧
    Engine.ballSpeedMag (mColl.checkPaddleCollision 1 initialEvents).1 =
      min (mColl.postSpinSpeed 1 * SPEED_INCREASE_FACTOR) MAX_BALL_SPEED :=
  ⟨⟨mColl_moving, mColl_overlap⟩,
    C5_speed_growth mColl 1 initialEvents ⟨mColl_moving, mColl_overlap⟩⟩

end

end Pong
